import Mathlib

/-!
Verification of the `cmdb-graph-rag-demo` frontend against its design
specification.

The sources under scrutiny are is the React frontend:
`App.jsx` / `ChatPanel.jsx` (handling of the `/ask` response envelope,
submit flow and error path) and `GraphVisualization.jsx` (vis-network
rendering of the graph payload).

The embedding is shallow: JSON payloads become an inductive `Json` type,
JavaScript property access becomes `Json.get` returning `Option Json`
(with `none` playing the role of `undefined`), JavaScript truthiness
becomes `Json.truthy`, and each React handler becomes a pure function
from its inputs (component state, the question string, the outcome of
the awaited HTTP call) to the new state plus the ordered list of
effects it performs.
-/

namespace CmdbRag

/-- JSON values, as carried by the `/ask` response envelope. -/
inductive Json where
  | null
  | bool (b : Bool)
  | num (n : Int)
  | str (s : String)
  | arr (elems : List Json)
  | obj (fields : List (String × Json))

/-- JavaScript property access `j[k]`: on an object, the value of the
first field named `k`; elsewhere `none` (i.e. `undefined`). -/
def Json.get : Json → String → Option Json
  | .obj fields, k => (fields.find? (fun p => p.1 == k)).map Prod.snd
  | _, _ => none

/-- JavaScript truthiness of a JSON value: `null`, `false`, `0` and the
empty string are falsy; arrays and objects are always truthy. -/
def Json.truthy : Json → Bool
  | .null => false
  | .bool b => b
  | .num n => n != 0
  | .str s => !s.isEmpty
  | .arr _ => true
  | .obj _ => true

/-- Truthiness of a possibly-`undefined` value (`undefined` is falsy). -/
def truthyOpt : Option Json → Bool
  | none => false
  | some j => j.truthy

mutual

/-- JavaScript string coercion `String(v)` as used inside template
literals (`` `${key}: ${value}` `` in `formatNodeTooltip`): arrays
arrays join the coercions of their members with commas. -/
def jsonToString : Json → String
  | .null => "null"
  | .bool b => if b then "true" else "false"
  | .num n => toString n
  | .str s => s
  | .arr xs => String.intercalate "," (jsonToStringList xs)
  | .obj _ => "[object Object]"

/-- Member-wise string coercion of a JSON array. -/
def jsonToStringList : List Json → List String
  | [] => []
  | x :: xs => jsonToString x :: jsonToStringList xs

end

mutual

/-- How React renders a JSON value placed as a JSX child
(`{source.type}`): strings verbatim, numbers via decimal notation,
arrays element by element, and `null` / booleans as nothing. -/
def reactTextVal : Json → String
  | .str s => s
  | .num n => toString n
  | .arr xs => String.join (reactTextList xs)
  | _ => ""

/-- Member-wise React rendering of an array of JSX children. -/
def reactTextList : List Json → List String
  | [] => []
  | x :: xs => reactTextVal x :: reactTextList xs

end

/-- React rendering of a possibly-`undefined` JSX child
(`undefined` renders as nothing). -/
def reactText : Option Json → String
  | some j => reactTextVal j
  | none => ""

/-! ## ChatPanel (`src/unnamed/part_000`, `ChatPanel`)

`handleSubmit` is modelled as a pure transition: given the panel state,
the submitted question and the outcome of the awaited
`axios.post(API_URL/ask, {question})`, it returns the new state and the
ordered effects (loading-flag writes, the HTTP request itself, the
`onNewAnswer` callback, the `console.error` log). -/

/-- A chat message as stored in the `messages` state array:
`type` (`"user"`, `"assistant"`, `"error"`, `"system"`), `content`
(a JSON value; `none` when the payload had no such field) and the
optional `sources` array attached to assistant messages. -/
structure Message where
  type : String
  content : Option Json
  sources : Option Json


/-- The ChatPanel component state touched by `handleSubmit`:
the `messages` list and the `inputValue` text field. -/
structure ChatState where
  messages : List Message
  inputValue : String


/-- Observable effects performed by `handleSubmit`, in program order. -/
inductive Effect where
  | setLoading (b : Bool)
  | postAsk (question : String)
  | callOnNewAnswer (answerData : Json)
  | logError


/-- Outcome of the awaited `axios.post`: either the parsed
`response.data`, or a thrown error carrying the axios `response`
object (reachable through `error.response?.data?.detail`). -/
inductive Outcome where
  | success (responseData : Json)
  | failure (response : Option Json)


/-- JavaScript whitespace as consumed by `String.prototype.trim`
(space, tab, newline, carriage return, form feed, vertical tab,
no-break space; the remaining Unicode space separators do not occur in
the questions considered here). -/
def isJsWhitespace (c : Char) : Bool :=
  c = ' ' || c = '\t' || c = '\n' || c = '\r' || c = '\x0c' || c = '\x0b' ||
    c = '\u00A0'

/-- JavaScript trimming `question.trim()`: strip leading and trailing
whitespace. -/
def jsTrim (s : String) : String :=
  String.mk
    (((s.toList.dropWhile isJsWhitespace).reverse.dropWhile
        isJsWhitespace).reverse)

/-- Accessor `error.response?.data?.detail` (optional chaining: any missing
link yields `undefined`). -/
def errDetail (response : Option Json) : Option Json :=
  (response.bind (fun r => r.get "data")).bind (fun d => d.get "detail")

/-- The fixed user-facing fallback text of the catch branch. -/
def fallbackErrorText : String := "Failed to get answer. Please try again."

/-- JavaScript or `x || y` where `x` may be `undefined`. -/
def jsOr (x : Option Json) (y : Json) : Json :=
  match x with
  | some v => if v.truthy then v else y
  | none => y

/-- The content of the error message built in the catch branch:
`error.response?.data?.detail` with the fixed fallback after `||`. -/
def errorContent (response : Option Json) : Json :=
  jsOr (errDetail response) (.str fallbackErrorText)

/-- Transition `handleSubmit` of `ChatPanel`, lines 75–113 of the source:
rejects a blank question before any effect; otherwise appends the user
message, clears the input, sets the loading flag, issues the request,
then on success appends the assistant message and invokes `onNewAnswer`,
on failure logs and appends the structured error message, and finally
clears the loading flag on both paths. -/
def handleSubmit (st : ChatState) (question : String) (outcome : Outcome) :
    ChatState × List Effect :=
  if (jsTrim question).isEmpty then (st, [])
  else
    let userMessage : Message := ⟨"user", some (.str question), none⟩
    let st1 : ChatState := ⟨st.messages ++ [userMessage], ""⟩
    match outcome with
    | .success answerData =>
        let assistantMessage : Message :=
          ⟨"assistant", answerData.get "answer", answerData.get "sources"⟩
        (⟨st1.messages ++ [assistantMessage], st1.inputValue⟩,
         [.setLoading true, .postAsk question,
          .callOnNewAnswer answerData, .setLoading false])
    | .failure response =>
        let errorMessage : Message := ⟨"error", some (errorContent response), none⟩
        (⟨st1.messages ++ [errorMessage], st1.inputValue⟩,
         [.setLoading true, .postAsk question, .logError, .setLoading false])

/-- The loading flag after a list of effects has run, starting from
`false` (no request in flight). -/
def loadingAfter (effs : List Effect) : Bool :=
  effs.foldl (fun b e => match e with | .setLoading v => v | _ => b) false

/-- Rendering of one entry of the per-message sources block
(`<li>{source.type}: {source.name}</li>`, ChatPanel lines 131–135). -/
def renderSourceItem (source : Json) : String :=
  reactText (source.get "type") ++ ": " ++ reactText (source.get "name")

/-- The ordered list of rendered source lines
(`message.sources.map((source, idx) => ...)`). -/
def renderSources (sources : List Json) : List String :=
  sources.map renderSourceItem

/-- The sources block of a message, guarded by
`message.sources && message.sources.length > 0` (ChatPanel line 127):
`none` when no block is rendered. In the envelope, `sources` is a JSON
array; a non-array value renders no block in this model. -/
def renderMessageSources (sources : Option Json) : Option (List String) :=
  match sources with
  | some (.arr xs) => if xs.length > 0 then some (renderSources xs) else none
  | _ => none

/-! ## App (`src/unnamed/part_000`, `App`) -/

/-- The App component state relevant to the graph panel. -/
structure AppState where
  graphData : Option Json


/-- Transition `handleNewAnswer` of `App`, lines 10–14 of the source: store
`answerData.graph_data` only when it is truthy, otherwise keep the
previously stored graph. -/
def handleNewAnswer (st : AppState) (answerData : Json) : AppState :=
  if truthyOpt (answerData.get "graph_data") then ⟨answerData.get "graph_data"⟩
  else st

/-! ## GraphVisualization (`src/frontend/src/components/GraphVisualization.jsx`) -/

/-- The `colorMap` object literal, lines 21–27. -/
def colorMap : List (String × String) :=
  [("Asset", "#4CAF50"), ("Service", "#2196F3"), ("User", "#FF9800"),
   ("Location", "#9C27B0"), ("Node", "#757575")]

/-- The `shapeMap` object literal, lines 30–36. -/
def shapeMap : List (String × String) :=
  [("Asset", "box"), ("Service", "ellipse"), ("User", "circle"),
   ("Location", "diamond"), ("Node", "dot")]

/-- Property lookup on one of the constant string-valued maps. -/
def lookupConst (m : List (String × String)) (k : String) : Option String :=
  (m.find? (fun p => p.1 == k)).map Prod.snd

/-- JavaScript or `x || y` on a possibly-`undefined` string
(the empty string is falsy). -/
def strOr (x : Option String) (y : String) : String :=
  match x with
  | some s => if s.isEmpty then y else s
  | none => y

/-- The primary label of a node:
`node.labels.find(l => l !== "Node") || "Node"` (lines 40 and 158;
quotes shown double here). `find` yields `undefined` when nothing
matches, and `||` also falls through when the found label is the falsy
empty string. -/
def primaryLabel (labels : List String) : String :=
  strOr (labels.find? (fun l => l != "Node")) "Node"

/-- Lookup `colorMap[label] || colorMap["Node"]` (line 41). -/
def nodeColor (label : String) : String :=
  strOr (lookupConst colorMap label) (strOr (lookupConst colorMap "Node") "")

/-- Lookup `shapeMap[label] || shapeMap["Node"]` (line 42). -/
def nodeShape (label : String) : String :=
  strOr (lookupConst shapeMap label) (strOr (lookupConst shapeMap "Node") "")

/-- Value of one hexadecimal digit, as `parseInt(·, 16)` reads it. -/
def hexDigitVal (c : Char) : Nat :=
  if '0' ≤ c ∧ c ≤ '9' then c.toNat - '0'.toNat
  else if 'a' ≤ c ∧ c ≤ 'f' then c.toNat - 'a'.toNat + 10
  else if 'A' ≤ c ∧ c ≤ 'F' then c.toNat - 'A'.toNat + 10
  else 0

/-- Reading `parseInt(hex.substr(i, 2), 16)` on the fixed palette strings. -/
def hexByte (cs : List Char) (i : Nat) : Nat :=
  16 * hexDigitVal (cs.getD i '0') + hexDigitVal (cs.getD (i + 1) '0')

/-- One lowercase hexadecimal digit, as `Number.prototype.toString(16)`
produces it. -/
def hexChar (n : Nat) : Char :=
  if n < 10 then Char.ofNat ('0'.toNat + n) else Char.ofNat ('a'.toNat + (n - 10))

/-- Rendering `n.toString(16).padStart(2, "0")` for a byte value `n < 256`. -/
def toHex2 (n : Nat) : String :=
  String.mk [hexChar (n / 16 % 16), hexChar (n % 16)]

/-- Helper `darkenColor` (lines 171–178): subtract 30 from each RGB channel,
clamped at 0 (`Nat` subtraction saturates exactly like `Math.max(0, ·)`). -/
def darkenColor (color : String) : String :=
  let cs := (color.replace "#" "").toList
  let r := hexByte cs 0 - 30
  let g := hexByte cs 2 - 30
  let b := hexByte cs 4 - 30
  "#" ++ toHex2 r ++ toHex2 g ++ toHex2 b

/-- The `labels` array of a node from the graph payload. Envelope labels
are strings; a non-string member is read through its string coercion. -/
def nodeLabels (node : Json) : List String :=
  match node.get "labels" with
  | some (.arr xs) => xs.map jsonToString
  | _ => []

/-- Entries `Object.entries(node.properties)` in insertion order; a missing
`properties` object is modelled as having no entries. -/
def nodeProps (node : Json) : List (String × Json) :=
  match node.get "properties" with
  | some (.obj fields) => fields
  | _ => []

/-- The lines pushed by `formatNodeTooltip` (lines 157–168): the bold
primary label, then one `key: value` line per property whose key is
neither `embedding` nor `description`, in property order. -/
def tooltipLines (labels : List String) (props : List (String × Json)) :
    List String :=
  props.foldl
    (fun acc p =>
      if p.1 != "embedding" && p.1 != "description" then
        acc ++ [p.1 ++ ": " ++ jsonToString p.2]
      else acc)
    ["<b>" ++ primaryLabel labels ++ "</b>"]

/-- Function `formatNodeTooltip`: the pushed lines joined with `<br/>`. -/
def formatNodeTooltip (labels : List String) (props : List (String × Json)) :
    String :=
  String.intercalate "<br/>" (tooltipLines labels props)

/-- The vis-network node record built on lines 45–65 (styling constants
that do not depend on the payload are omitted). -/
structure VisNode where
  id : Option Json
  label : Json
  title : String
  background : String
  border : String
  shape : String


/-- The per-node transformation of lines 39–66. -/
def mkVisNode (node : Json) : VisNode :=
  let label := primaryLabel (nodeLabels node)
  let color := nodeColor label
  let shape := nodeShape label
  let name := jsOr ((node.get "properties").bind (fun p => p.get "name"))
    (.str "Unknown")
  ⟨node.get "id", name, formatNodeTooltip (nodeLabels node) (nodeProps node),
   color, darkenColor color, shape⟩

/-- The vis-network edge record built on lines 69–88 (styling constants
that do not depend on the payload are omitted). -/
structure VisEdge where
  id : Nat
  from' : Option Json
  to' : Option Json
  label : Option Json
  arrows : String


/-- The per-relationship transformation of lines 69–88:
`{id: idx, from: rel.source, to: rel.target, label: rel.type, arrows: 'to', ...}`. -/
def mkVisEdge (idx : Nat) (rel : Json) : VisEdge :=
  ⟨idx, rel.get "source", rel.get "target", rel.get "type", "to"⟩

/-- Mapping `relationships.map((rel, idx) => ...)`, line 69. -/
def visEdges (rels : List Json) : List VisEdge :=
  rels.enum.map (fun p => mkVisEdge p.1 p.2)

/-- Outcome of the network-building effect of `GraphVisualization`
(lines 9–147): an early return without building a network, a built
network, or a thrown `TypeError` (e.g. `.map` on a non-array). -/
inductive RenderOutcome where
  | noRender
  | render (nodes : List VisNode) (edges : List VisEdge)
  | jsError


/-- The network-building effect body: return early when `graphData` is
falsy (line 10) or `nodes` is falsy or empty (line 16); otherwise map
nodes and relationships into vis records; `.map` on a value that is not
an array throws. -/
def buildNetwork (graphData : Option Json) : RenderOutcome :=
  match graphData with
  | none => .noRender
  | some gd =>
    if !gd.truthy then .noRender
    else
      match gd.get "nodes" with
      | none => .noRender
      | some nj =>
        if !nj.truthy then .noRender
        else
          match nj with
          | .arr [] => .noRender
          | .arr ns =>
              match gd.get "relationships" with
              | some (.arr rs) => .render (ns.map mkVisNode) (visEdges rs)
              | _ => .jsError
          | _ => .jsError

/-! ## The response-envelope contract (spec §6)

`specEnvelopeView` is written from the wording of the spec: it reads a payload
through exactly the contract field names
`question, answer, sources[{name, type, properties}],
graph_data{nodes[{id, labels, properties}],
relationships[{source, target, type}]}` and records nothing else about
the payload. `consumeAnswer` collects everything the frontend derives
from one `/ask` payload. Factoring `consumeAnswer` through
`specEnvelopeView` shows the frontend reads the payload only through
the contract field names. -/

/-- The shape of a value reached through a contract field name that the
spec declares to be a list: missing, present but falsy, truthy but not
a list, or a list of per-element views. -/
inductive JsListView (α : Type) where
  | absent
  | falsyVal
  | truthyNonList
  | list (xs : List α)


/-- Classify a possibly-`undefined` value as a list of element views. -/
def classifyList {α : Type} (v : Option Json) (f : Json → α) : JsListView α :=
  match v with
  | none => .absent
  | some (.arr xs) => .list (xs.map f)
  | some j => if j.truthy then .truthyNonList else .falsyVal

/-- A payload as seen through the contract field names of spec §6, and
through them only. -/
structure EnvelopeView where
  question : Option Json
  answer : Option Json
  sources : JsListView (Option Json × Option Json × Option Json)
  graphPresent : Bool
  nodes : JsListView (Option Json × Option Json × Option Json)
  relationships : JsListView (Option Json × Option Json × Option Json)


/-- Modelled from the spec (§6 response envelope): the view of a payload
under the contract field names — `question`, `answer`, the `sources`
entries via `name`/`type`/`properties`, the presence of `graph_data`, the
`graph_data.nodes` entries via `id`/`labels`/`properties` and the
`graph_data.relationships` entries via `source`/`target`/`type`. -/
def specEnvelopeView (j : Json) : EnvelopeView :=
  ⟨j.get "question",
   j.get "answer",
   classifyList (j.get "sources")
     (fun s => (s.get "name", s.get "type", s.get "properties")),
   truthyOpt (j.get "graph_data"),
   classifyList ((j.get "graph_data").bind (fun g => g.get "nodes"))
     (fun n => (n.get "id", n.get "labels", n.get "properties")),
   classifyList ((j.get "graph_data").bind (fun g => g.get "relationships"))
     (fun r => (r.get "source", r.get "target", r.get "type"))⟩

/-- Everything the frontend derives from one `/ask` answer payload:
the assistant message content (`answerData.answer`), the rendered
sources block, whether the graph panel state is replaced
(`answerData.graph_data` truthy), and the network built from the newly
stored graph (`none` when the stored graph is left unchanged). -/
structure Consumed where
  assistantContent : Option Json
  sourceLines : Option (List String)
  graphStored : Bool
  network : Option RenderOutcome


/-- The consumption of one answer payload by the frontend, assembled
from the success branch of `handleSubmit`, `handleNewAnswer` and the
`GraphVisualization` effect. -/
def consumeAnswer (answerData : Json) : Consumed :=
  let gd := answerData.get "graph_data"
  let stored := truthyOpt gd
  ⟨answerData.get "answer",
   renderMessageSources (answerData.get "sources"),
   stored,
   if stored then some (buildNetwork gd) else none⟩

/-- Variant of `mkVisNode` as a function of the per-node contract view
`(id, labels, properties)`. -/
def mkVisNodeView (t : Option Json × Option Json × Option Json) : VisNode :=
  let labels := match t.2.1 with
    | some (.arr xs) => xs.map jsonToString
    | _ => []
  let props := match t.2.2 with
    | some (.obj fields) => fields
    | _ => []
  let label := primaryLabel labels
  let color := nodeColor label
  let name := jsOr (t.2.2.bind (fun p => p.get "name")) (.str "Unknown")
  ⟨t.1, name, formatNodeTooltip labels props, color, darkenColor color,
   nodeShape label⟩

/-- Variant of `mkVisEdge` as a function of the per-relationship contract
view
`(source, target, type)`. -/
def mkVisEdgeView (idx : Nat) (t : Option Json × Option Json × Option Json) :
    VisEdge :=
  ⟨idx, t.1, t.2.1, t.2.2, "to"⟩

/-- Variant of `renderSourceItem` as a function of the per-source contract
view
`(name, type, properties)`. -/
def renderSourceItemView (t : Option Json × Option Json × Option Json) :
    String :=
  reactText t.2.1 ++ ": " ++ reactText t.1

/-- The sources block as a function of the contract view of the
`sources` field. -/
def sourcesBlockView
    (v : JsListView (Option Json × Option Json × Option Json)) :
    Option (List String) :=
  match v with
  | .list ts => if ts.length > 0 then some (ts.map renderSourceItemView)
      else none
  | _ => none

/-- The edge list as a function of the contract views of the
relationships. -/
def visEdgesView (ts : List (Option Json × Option Json × Option Json)) :
    List VisEdge :=
  ts.enum.map (fun p => mkVisEdgeView p.1 p.2)

/-- The network-building outcome as a function of the contract views of
`graph_data.nodes` and `graph_data.relationships`. -/
def networkView
    (nv rv : JsListView (Option Json × Option Json × Option Json)) :
    RenderOutcome :=
  match nv with
  | .absent => .noRender
  | .falsyVal => .noRender
  | .truthyNonList => .jsError
  | .list [] => .noRender
  | .list ts =>
      match rv with
      | .list rs => .render (ts.map mkVisNodeView) (visEdgesView rs)
      | _ => .jsError

/-! ## Theorems -/

/-- A truthy non-list or falsy value at `sources` renders no block. -/
theorem sourcesBlockView_bool (b : Bool) :
    sourcesBlockView
      (if b = true then JsListView.truthyNonList else JsListView.falsyVal) =
      none := by
  cases b <;> rfl

/-- With a nonempty node list, a relationships value that is not a list
throws, whichever way it is classified. -/
theorem networkView_nonlist_rel
    (t : Option Json × Option Json × Option Json)
    (ts : List (Option Json × Option Json × Option Json)) (b : Bool) :
    networkView (JsListView.list (t :: ts))
      (if b = true then JsListView.truthyNonList else JsListView.falsyVal) =
      RenderOutcome.jsError := by
  cases b <;> rfl

/-- The rendered sources block depends on the `sources` value only
through its contract view. -/
theorem renderMessageSources_eq_view (v : Option Json) :
    renderMessageSources v =
      sourcesBlockView (classifyList v
        (fun s => (s.get "name", s.get "type", s.get "properties"))) := by
  cases v with
  | none => rfl
  | some j =>
    cases j with
    | arr xs =>
        show (if xs.length > 0 then some (renderSources xs) else none) = _
        simp only [classifyList, sourcesBlockView, List.length_map]
        by_cases h : xs.length > 0
        · rw [if_pos h, if_pos h, List.map_map]
          exact congrArg some (List.map_congr_left (fun _ _ => rfl))
        · rw [if_neg h, if_neg h]
    | null => rfl
    | bool b => cases b <;> rfl
    | num n => exact (sourcesBlockView_bool ((Json.num n).truthy)).symm
    | str s => exact (sourcesBlockView_bool ((Json.str s).truthy)).symm
    | obj fs => rfl

/-- The network built from a truthy `graph_data` depends on it only
through the contract views of its `nodes` and `relationships`. -/
theorem buildNetwork_eq_view (g : Json) (ht : g.truthy = true) :
    buildNetwork (some g) =
      networkView
        (classifyList (g.get "nodes")
          (fun n => (n.get "id", n.get "labels", n.get "properties")))
        (classifyList (g.get "relationships")
          (fun r => (r.get "source", r.get "target", r.get "type"))) := by
  cases hn : g.get "nodes" with
  | none => simp [buildNetwork, ht, hn, classifyList, networkView]
  | some nj =>
    cases nj with
    | null =>
        have hv : Json.null.truthy = false := rfl
        simp [buildNetwork, ht, hn, hv, classifyList, networkView]
    | obj fs =>
        have hv : (Json.obj fs).truthy = true := rfl
        simp [buildNetwork, ht, hn, hv, classifyList, networkView]
    | bool b =>
        have hv : (Json.bool b).truthy = b := rfl
        cases b <;> simp [buildNetwork, ht, hn, hv, classifyList, networkView]
    | num m =>
        cases hv : (Json.num m).truthy <;>
          simp [buildNetwork, ht, hn, hv, classifyList, networkView]
    | str s =>
        cases hv : (Json.str s).truthy <;>
          simp [buildNetwork, ht, hn, hv, classifyList, networkView]
    | arr ns =>
      cases ns with
      | nil =>
          have hv : (Json.arr ([] : List Json)).truthy = true := rfl
          simp [buildNetwork, ht, hn, hv, classifyList, networkView]
      | cons a as =>
        have harr : (Json.arr (a :: as)).truthy = true := rfl
        cases hr : g.get "relationships" with
        | none =>
            simp [buildNetwork, ht, hn, hr, harr, classifyList, networkView]
        | some rj =>
          cases rj with
          | arr rs =>
              have hmn : (a :: as).map mkVisNode =
                  ((a :: as).map (fun n =>
                    (n.get "id", n.get "labels", n.get "properties"))).map
                    mkVisNodeView := by
                rw [List.map_map]
                exact List.map_congr_left (fun _ _ => rfl)
              have hme : visEdges rs =
                  visEdgesView (rs.map (fun r =>
                    (r.get "source", r.get "target", r.get "type"))) := by
                show rs.enum.map (fun p => mkVisEdge p.1 p.2) =
                  ((rs.map (fun r =>
                    (r.get "source", r.get "target", r.get "type"))).enum).map
                    (fun p => mkVisEdgeView p.1 p.2)
                rw [List.enum_map, List.map_map]
                exact List.map_congr_left (fun _ _ => rfl)
              have hl : buildNetwork (some g) =
                  RenderOutcome.render ((a :: as).map mkVisNode)
                    (visEdges rs) := by
                simp [buildNetwork, ht, hn, hr, harr]
              rw [hl, hmn, hme]
              rfl
          | null =>
              have hv : Json.null.truthy = false := rfl
              simp [buildNetwork, ht, hn, hr, harr, hv, classifyList,
                networkView]
          | obj fs =>
              have hv : (Json.obj fs).truthy = true := rfl
              simp [buildNetwork, ht, hn, hr, harr, hv, classifyList,
                networkView]
          | bool b =>
              have hv : (Json.bool b).truthy = b := rfl
              cases b <;>
                simp [buildNetwork, ht, hn, hr, harr, hv, classifyList,
                  networkView]
          | num m =>
              cases hv : (Json.num m).truthy <;>
                simp [buildNetwork, ht, hn, hr, harr, hv, classifyList,
                  networkView]
          | str s =>
              cases hv : (Json.str s).truthy <;>
                simp [buildNetwork, ht, hn, hr, harr, hv, classifyList,
                  networkView]

/-- Claim C3: a question that is empty after trimming is rejected before any
collaborator call: `handleSubmit` issues no request to the `/ask`
endpoint, appends no message, and leaves all state unchanged. -/
theorem handleSubmit_blank_rejected (st : ChatState) (question : String)
    (outcome : Outcome) (h : (jsTrim question).isEmpty = true) :
    (handleSubmit st question outcome).1 = st ∧
    (handleSubmit st question outcome).2 = [] ∧
    Effect.postAsk question ∉ (handleSubmit st question outcome).2 := by
  refine ⟨?_, ?_, ?_⟩ <;> simp [handleSubmit, h]

/-- Witness for C3: the whitespace-only question is rejected with no
state change and no effects. -/
theorem handleSubmit_blank_rejected_witness :
    (handleSubmit ⟨[], "q"⟩ "   " (.success .null)).1 = ⟨[], "q"⟩ ∧
    (handleSubmit ⟨[], "q"⟩ "   " (.success .null)).2 = [] ∧
    Effect.postAsk "   " ∉ (handleSubmit ⟨[], "q"⟩ "   " (.success .null)).2 :=
  handleSubmit_blank_rejected ⟨[], "q"⟩ "   " (.success .null) (by rfl)

/-- Claim C10: for a non-blank question the loading flag is set to true
before the `/ask` request is issued and is false once all of
the effects of `handleSubmit` have run, on the success path and on the
failure path alike. -/
theorem handleSubmit_loading_flag (st : ChatState) (question : String)
    (outcome : Outcome) (h : (jsTrim question).isEmpty = false) :
    ∃ pre suf,
      (handleSubmit st question outcome).2 =
        pre ++ Effect.postAsk question :: suf ∧
      loadingAfter pre = true ∧
      loadingAfter ((handleSubmit st question outcome).2) = false := by
  cases outcome with
  | success a =>
      exact ⟨[.setLoading true], [.callOnNewAnswer a, .setLoading false],
        by simp [handleSubmit, h], rfl, by simp [handleSubmit, h, loadingAfter]⟩
  | failure r =>
      exact ⟨[.setLoading true], [.logError, .setLoading false],
        by simp [handleSubmit, h], rfl, by simp [handleSubmit, h, loadingAfter]⟩

/-- Witness for C10: on a concrete successful submission, the loading
flag is raised before the request and lowered at the end. -/
theorem handleSubmit_loading_flag_witness :
    ∃ pre suf,
      (handleSubmit ⟨[], ""⟩ "hello" (.success .null)).2 =
        pre ++ Effect.postAsk "hello" :: suf ∧
      loadingAfter pre = true ∧
      loadingAfter ((handleSubmit ⟨[], ""⟩ "hello" (.success .null)).2) = false :=
  handleSubmit_loading_flag ⟨[], ""⟩ "hello" (.success .null) (by rfl)

/-- Claim C6: on a failed `/ask` request the user receives exactly one
appended error message, whose content is the server-provided `detail`
when it is present (and truthy), and the fixed fallback text otherwise;
the content is never anything but one of those two. -/
theorem handleSubmit_error_structured (st : ChatState) (question : String)
    (response : Option Json) (h : (jsTrim question).isEmpty = false) :
    (handleSubmit st question (.failure response)).1.messages =
      st.messages ++ [⟨"user", some (.str question), none⟩,
        ⟨"error", some (errorContent response), none⟩] ∧
    (∀ d, errDetail response = some d → d.truthy = true →
      errorContent response = d) ∧
    (errorContent response = .str fallbackErrorText ∨
      errDetail response = some (errorContent response)) := by
  refine ⟨by simp [handleSubmit, h], ?_, ?_⟩
  · intro d hd ht
    simp [errorContent, jsOr, hd, ht]
  · cases hd : errDetail response with
    | none => exact Or.inl (by simp [errorContent, jsOr, hd])
    | some d =>
        by_cases ht : d.truthy = true
        · exact Or.inr (by simp [errorContent, jsOr, hd, ht])
        · exact Or.inl (by simp [errorContent, jsOr, hd, ht])

/-- Witness for C6: a concrete failure with a server `detail` shows the
detail; the appended messages are the user message and one error
message. -/
theorem handleSubmit_error_structured_witness :
    (handleSubmit ⟨[], ""⟩ "why?"
        (.failure (some (.obj [("data",
          .obj [("detail", .str "backend down")])])))).1.messages =
      [⟨"user", some (.str "why?"), none⟩,
       ⟨"error", some (errorContent (some (.obj [("data",
          .obj [("detail", .str "backend down")])]))), none⟩] ∧
    errorContent (some (.obj [("data",
        .obj [("detail", .str "backend down")])])) = .str "backend down" := by
  have h := handleSubmit_error_structured ⟨[], ""⟩ "why?"
    (some (.obj [("data", .obj [("detail", .str "backend down")])])) (by rfl)
  exact ⟨h.1, h.2.1 (.str "backend down") (by rfl) (by rfl)⟩

/-- Claim C9: `handleNewAnswer` leaves the stored graph unchanged when the
`graph_data` field of the payload is absent, null or otherwise falsy,
and replaces it with that field exactly when it is truthy. -/
theorem handleNewAnswer_graph_frame (st : AppState) (answerData : Json) :
    (truthyOpt (answerData.get "graph_data") = false →
      handleNewAnswer st answerData = st) ∧
    (truthyOpt (answerData.get "graph_data") = true →
      (handleNewAnswer st answerData).graphData =
        answerData.get "graph_data") := by
  constructor
  · intro h; simp [handleNewAnswer, h]
  · intro h; simp [handleNewAnswer, h]

/-- Witness for C9: a payload without `graph_data` leaves the stored
graph alone; one with a truthy `graph_data` replaces it. -/
theorem handleNewAnswer_graph_frame_witness :
    handleNewAnswer ⟨some (.str "old")⟩ (.obj [("answer", .str "A")]) =
      ⟨some (.str "old")⟩ ∧
    (handleNewAnswer ⟨some (.str "old")⟩
        (.obj [("graph_data", .obj [("nodes", .arr [])])])).graphData =
      some (.obj [("nodes", .arr [])]) :=
  ⟨(handleNewAnswer_graph_frame ⟨some (.str "old")⟩
      (.obj [("answer", .str "A")])).1 (by rfl),
   (handleNewAnswer_graph_frame ⟨some (.str "old")⟩
      (.obj [("graph_data", .obj [("nodes", .arr [])])])).2 (by rfl)⟩

/-- Claim C2: the sources block renders the `sources` list in exactly the
given order — entry `i` of the rendered list is the rendering of entry
`i` of the payload list, and the lengths agree, so nothing is
reordered, filtered or re-ranked and index 0 stays first. -/
theorem renderSources_order (sources : List Json) :
    (renderSources sources).length = sources.length ∧
    ∀ i : Nat, (renderSources sources)[i]? =
      (sources[i]?).map renderSourceItem := by
  constructor
  · simp [renderSources]
  · intro i; simp [renderSources]

/-- Claim C8: each relationship of the payload produces exactly one edge,
at its own index, directed `from` the `source` of the relationship `to`
its `target` with the arrow drawn at the `to` end, labeled with its
`type`; nothing is flipped or dropped. -/
theorem visEdges_exact (rels : List Json) :
    (visEdges rels).length = rels.length ∧
    ∀ (i : Nat) (rel : Json), rels[i]? = some rel →
      (visEdges rels)[i]? =
        some ⟨i, rel.get "source", rel.get "target", rel.get "type", "to"⟩ := by
  constructor
  · simp [visEdges, List.enum_length]
  · intro i rel h
    simp [visEdges, List.getElem?_map, List.getElem?_enum, h, mkVisEdge]

/-- Witness for C8: one concrete `DEPENDS_ON` relationship becomes the
edge from its source to its target with the arrow at the target. -/
theorem visEdges_exact_witness :
    (visEdges [Json.obj [("source", Json.str "a"), ("target", Json.str "b"),
        ("type", Json.str "DEPENDS_ON")]])[0]? =
      some ⟨0, some (Json.str "a"), some (Json.str "b"),
        some (Json.str "DEPENDS_ON"), "to"⟩ :=
  (visEdges_exact [Json.obj [("source", Json.str "a"),
      ("target", Json.str "b"), ("type", Json.str "DEPENDS_ON")]]).2 0
    (Json.obj [("source", Json.str "a"), ("target", Json.str "b"),
      ("type", Json.str "DEPENDS_ON")]) rfl

/-- Claim C7, counterexample: on the label list `[""]` the first label
that is not the generic tag `Node` is the empty string, yet the display
label is `Node` — the found empty string is falsy, so
`find(l => l !== "Node") || "Node"` falls through to the generic tag,
refuting the claim that the first non-generic label is always used. -/
theorem primaryLabel_empty_label_cex :
    List.find? (fun l => l != "Node") [""] = some "" ∧
    primaryLabel [""] = "Node" ∧ ("" : String) ≠ "Node" := by
  refine ⟨rfl, rfl, by decide⟩

/-- Claim C7, amended: the primary label used for display is the first
label that is not the generic tag `Node`, provided that label is
non-empty; when every label is generic, the label list is empty, or the
first non-generic label is the falsy empty string, the generic tag
`Node` is used, and it gets the default color `#757575` and the default
shape `dot`. -/
theorem primaryLabel_spec :
    (∀ (pre : List String) (l : String) (post : List String),
      (∀ x ∈ pre, x = "Node") → l ≠ "Node" → l ≠ "" →
        primaryLabel (pre ++ l :: post) = l) ∧
    (∀ (pre post : List String), (∀ x ∈ pre, x = "Node") →
        primaryLabel (pre ++ "" :: post) = "Node") ∧
    (∀ labels : List String, (∀ x ∈ labels, x = "Node") →
      primaryLabel labels = "Node" ∧
      nodeColor (primaryLabel labels) = "#757575" ∧
      nodeShape (primaryLabel labels) = "dot") := by
  have hskip : ∀ (rest : List String),
      primaryLabel ("Node" :: rest) = primaryLabel rest := by
    intro rest
    simp [primaryLabel, List.find?_cons_of_neg]
  have h1 : ∀ (pre : List String) (l : String) (post : List String),
      (∀ x ∈ pre, x = "Node") → l ≠ "Node" → l ≠ "" →
        primaryLabel (pre ++ l :: post) = l := by
    intro pre l post
    induction pre with
    | nil =>
        intro _ hl hne
        have hlb : (l != "Node") = true := by simpa using hl
        have hemp : l.isEmpty = false := by
          cases hv : l.isEmpty with
          | false => rfl
          | true => exact absurd ((String.isEmpty_iff l).mp hv) hne
        show strOr (List.find? (fun s => s != "Node") (l :: post)) "Node" = l
        rw [@List.find?_cons_of_pos String (fun s => s != "Node") l post hlb]
        simp [strOr, hemp]
    | cons a as ih =>
        intro hpre hl hne
        have ha : a = "Node" := hpre a (List.mem_cons_self a as)
        rw [List.cons_append, ha, hskip]
        exact ih (fun x hx => hpre x (List.mem_cons_of_mem a hx)) hl hne
  have h2 : ∀ (pre post : List String), (∀ x ∈ pre, x = "Node") →
      primaryLabel (pre ++ "" :: post) = "Node" := by
    intro pre post
    induction pre with
    | nil => intro _; rfl
    | cons a as ih =>
        intro hpre
        have ha : a = "Node" := hpre a (List.mem_cons_self a as)
        rw [List.cons_append, ha, hskip]
        exact ih (fun x hx => hpre x (List.mem_cons_of_mem a hx))
  have h3 : ∀ labels : List String, (∀ x ∈ labels, x = "Node") →
      primaryLabel labels = "Node" := by
    intro labels
    induction labels with
    | nil => intro _; rfl
    | cons a as ih =>
        intro h
        have ha : a = "Node" := h a (List.mem_cons_self a as)
        rw [ha, hskip]
        exact ih (fun x hx => h x (List.mem_cons_of_mem a hx))
  refine ⟨h1, h2, fun labels h => ⟨h3 labels h, ?_, ?_⟩⟩
  · rw [h3 labels h]; rfl
  · rw [h3 labels h]; rfl

/-- Witness for C7: `["Node", "Asset"]` has primary label `Asset`;
`["Node", "", "Asset"]` falls back to the generic tag because the first
non-generic label is empty; `["Node"]` falls back to the generic tag
with gray color and dot shape. -/
theorem primaryLabel_spec_witness :
    primaryLabel (["Node"] ++ "Asset" :: []) = "Asset" ∧
    primaryLabel (["Node"] ++ "" :: ["Asset"]) = "Node" ∧
    (primaryLabel ["Node"] = "Node" ∧
      nodeColor (primaryLabel ["Node"]) = "#757575" ∧
      nodeShape (primaryLabel ["Node"]) = "dot") :=
  ⟨primaryLabel_spec.1 ["Node"] "Asset" [] (by decide) (by decide) (by decide),
   primaryLabel_spec.2.1 ["Node"] ["Asset"] (by decide),
   primaryLabel_spec.2.2 ["Node"] (by decide)⟩

/-- Claim C5: a graph payload whose `nodes` list is absent or empty makes the
rendering step return early and normally — no network is built, no
JavaScript error is thrown — and an empty `sources` list renders no
sources block. -/
theorem emptyGraph_render_safe (gd : Json)
    (h : gd.get "nodes" = none ∨ gd.get "nodes" = some (Json.arr [])) :
    buildNetwork (some gd) = RenderOutcome.noRender ∧
    buildNetwork (some gd) ≠ RenderOutcome.jsError ∧
    renderMessageSources (some (Json.arr [])) = none := by
  have hb : buildNetwork (some gd) = RenderOutcome.noRender := by
    by_cases ht : gd.truthy = true
    · cases h with
      | inl h0 => simp [buildNetwork, ht, h0]
      | inr h0 => simp [buildNetwork, ht, h0, Json.truthy]
    · have ht' : gd.truthy = false := by
        cases hv : gd.truthy
        · rfl
        · exact absurd hv ht
      simp [buildNetwork, ht']
  refine ⟨hb, ?_, rfl⟩
  rw [hb]
  intro hcon
  cases hcon

/-- Witness for C5: the payload `{nodes: []}` builds no network and
throws nothing. -/
theorem emptyGraph_render_safe_witness :
    buildNetwork (some (Json.obj [("nodes", Json.arr [])])) =
      RenderOutcome.noRender ∧
    buildNetwork (some (Json.obj [("nodes", Json.arr [])])) ≠
      RenderOutcome.jsError ∧
    renderMessageSources (some (Json.arr [])) = none :=
  emptyGraph_render_safe (Json.obj [("nodes", Json.arr [])]) (Or.inr rfl)

/-- Claim C4, counterexample: the claim says a short `description` is still
shown, but the tooltip of a node with the one-word description `ok`
contains no description line at all. -/
theorem formatNodeTooltip_short_description_cex :
    "description: ok" ∉ tooltipLines ["Asset"]
        [("name", Json.str "DB-Server"), ("description", Json.str "ok")] ∧
    tooltipLines ["Asset"]
        [("name", Json.str "DB-Server"), ("description", Json.str "ok")] =
      ["<b>Asset</b>", "name: DB-Server"] := by
  constructor
  · decide
  · decide

/-- An accumulator-passing push loop collects exactly the filtered,
mapped entries after the initial accumulator. -/
theorem foldl_push_eq_filterMap {α : Type} (f : α → Bool) (g : α → String) :
    ∀ (props : List α) (acc : List String),
      props.foldl (fun acc p => if f p then acc ++ [g p] else acc) acc =
        acc ++ (props.filter f).map g := by
  intro props
  induction props with
  | nil => intro acc; simp
  | cons p ps ih =>
      intro acc
      simp only [List.foldl_cons, List.filter_cons]
      cases hv : f p with
      | true => rw [if_pos rfl, if_pos rfl, ih]; simp
      | false => rw [if_neg (by simp), if_neg (by simp), ih]

/-- Claim C4, amended: the per-node tooltip shows the bold primary label
followed by every property except the embedding vector and except the
description field — the latter excluded entirely, whatever its length —
with all remaining properties rendered unmodified and in order. -/
theorem tooltipLines_excludes_description (labels : List String)
    (props : List (String × Json)) :
    tooltipLines labels props =
      ("<b>" ++ primaryLabel labels ++ "</b>") ::
        (props.filter
            (fun p => p.1 != "embedding" && p.1 != "description")).map
          (fun p => p.1 ++ ": " ++ jsonToString p.2) :=
  foldl_push_eq_filterMap _ _ props _


/-- Claim C1: the frontend reads an answer payload only through the contract
field names of the response envelope — `question`, `answer`, `sources`
(each entry via `name`, `type`, `properties`) and `graph_data` with
`nodes` (each via `id`, `labels`, `properties`) and `relationships`
(each via `source`, `target`, `type`): two payloads that agree under
exactly those names are consumed identically, so no renamed variant of
any field is ever read. -/
theorem consumeAnswer_reads_contract_fields (j1 j2 : Json)
    (h : specEnvelopeView j1 = specEnvelopeView j2) :
    consumeAnswer j1 = consumeAnswer j2 := by
  have ha : j1.get "answer" = j2.get "answer" :=
    congrArg EnvelopeView.answer h
  have hs : classifyList (j1.get "sources")
        (fun s => (s.get "name", s.get "type", s.get "properties")) =
      classifyList (j2.get "sources")
        (fun s => (s.get "name", s.get "type", s.get "properties")) :=
    congrArg EnvelopeView.sources h
  have hg : truthyOpt (j1.get "graph_data") =
      truthyOpt (j2.get "graph_data") :=
    congrArg EnvelopeView.graphPresent h
  have hnv : classifyList
        ((j1.get "graph_data").bind (fun g => g.get "nodes"))
        (fun n => (n.get "id", n.get "labels", n.get "properties")) =
      classifyList ((j2.get "graph_data").bind (fun g => g.get "nodes"))
        (fun n => (n.get "id", n.get "labels", n.get "properties")) :=
    congrArg EnvelopeView.nodes h
  have hrv : classifyList
        ((j1.get "graph_data").bind (fun g => g.get "relationships"))
        (fun r => (r.get "source", r.get "target", r.get "type")) =
      classifyList
        ((j2.get "graph_data").bind (fun g => g.get "relationships"))
        (fun r => (r.get "source", r.get "target", r.get "type")) :=
    congrArg EnvelopeView.relationships h
  simp only [consumeAnswer]
  rw [ha, renderMessageSources_eq_view, renderMessageSources_eq_view, hs, hg]
  by_cases hb : truthyOpt (j2.get "graph_data") = true
  · rw [if_pos hb, if_pos hb]
    cases hg1 : j1.get "graph_data" with
    | none =>
        have : truthyOpt (j1.get "graph_data") = true := hg.trans hb
        rw [hg1] at this
        exact absurd this (by simp [truthyOpt])
    | some g1 =>
      cases hg2 : j2.get "graph_data" with
      | none =>
          rw [hg2] at hb
          exact absurd hb (by simp [truthyOpt])
      | some g2 =>
        have ht1 : g1.truthy = true := by
          have hx : truthyOpt (j1.get "graph_data") = true := hg.trans hb
          rw [hg1] at hx
          simpa [truthyOpt] using hx
        have ht2 : g2.truthy = true := by
          rw [hg2] at hb
          simpa [truthyOpt] using hb
        have hnv' : classifyList (g1.get "nodes")
              (fun n => (n.get "id", n.get "labels", n.get "properties")) =
            classifyList (g2.get "nodes")
              (fun n => (n.get "id", n.get "labels", n.get "properties")) := by
          rw [hg1, hg2] at hnv
          exact hnv
        have hrv' : classifyList (g1.get "relationships")
              (fun r => (r.get "source", r.get "target", r.get "type")) =
            classifyList (g2.get "relationships")
              (fun r => (r.get "source", r.get "target", r.get "type")) := by
          rw [hg1, hg2] at hrv
          exact hrv
        rw [buildNetwork_eq_view g1 ht1, buildNetwork_eq_view g2 ht2,
          hnv', hrv']
  · rw [if_neg hb, if_neg hb]

/-- Witness for C1: a payload carrying extra non-contract fields
(`debug` at top level, `score` inside a source entry) is consumed
exactly like the same payload without them. -/
theorem consumeAnswer_reads_contract_fields_witness :
    specEnvelopeView (Json.obj
      [("question", Json.str "Where is the DB-Server located?"),
       ("answer", Json.str "In Data-Center-1."),
       ("sources", Json.arr [Json.obj
         [("name", Json.str "DB-Server"), ("type", Json.str "Asset"),
          ("properties", Json.obj []), ("score", Json.num 1)]]),
       ("graph_data", Json.obj
         [("nodes", Json.arr [Json.obj
            [("id", Json.num 1),
             ("labels", Json.arr [Json.str "Asset"]),
             ("properties", Json.obj [("name", Json.str "DB-Server")])]]),
          ("relationships", Json.arr [])]),
       ("debug", Json.str "extra")]) =
    specEnvelopeView (Json.obj
      [("question", Json.str "Where is the DB-Server located?"),
       ("answer", Json.str "In Data-Center-1."),
       ("sources", Json.arr [Json.obj
         [("name", Json.str "DB-Server"), ("type", Json.str "Asset"),
          ("properties", Json.obj [])]]),
       ("graph_data", Json.obj
         [("nodes", Json.arr [Json.obj
            [("id", Json.num 1),
             ("labels", Json.arr [Json.str "Asset"]),
             ("properties", Json.obj [("name", Json.str "DB-Server")])]]),
          ("relationships", Json.arr [])])]) ∧
    consumeAnswer (Json.obj
      [("question", Json.str "Where is the DB-Server located?"),
       ("answer", Json.str "In Data-Center-1."),
       ("sources", Json.arr [Json.obj
         [("name", Json.str "DB-Server"), ("type", Json.str "Asset"),
          ("properties", Json.obj []), ("score", Json.num 1)]]),
       ("graph_data", Json.obj
         [("nodes", Json.arr [Json.obj
            [("id", Json.num 1),
             ("labels", Json.arr [Json.str "Asset"]),
             ("properties", Json.obj [("name", Json.str "DB-Server")])]]),
          ("relationships", Json.arr [])]),
       ("debug", Json.str "extra")]) =
    consumeAnswer (Json.obj
      [("question", Json.str "Where is the DB-Server located?"),
       ("answer", Json.str "In Data-Center-1."),
       ("sources", Json.arr [Json.obj
         [("name", Json.str "DB-Server"), ("type", Json.str "Asset"),
          ("properties", Json.obj [])]]),
       ("graph_data", Json.obj
         [("nodes", Json.arr [Json.obj
            [("id", Json.num 1),
             ("labels", Json.arr [Json.str "Asset"]),
             ("properties", Json.obj [("name", Json.str "DB-Server")])]]),
          ("relationships", Json.arr [])])]) :=
  ⟨rfl, consumeAnswer_reads_contract_fields _ _ rfl⟩

end CmdbRag
